import Mathlib

/-!
Shallow embedding of the MetroTracker polyline/coordinate normalization and
map-state reconciliation core, together with theorems settling the spec
claims about it.

Sources embedded:
 * `src/lib/polylineUtils.ts` — `decodePolyline`, `isEncodedPolyline`,
   `processPolylineData` (the lib version with the tuple branch);
 * the fuller `polylineUtils` variant in `src/unnamed/part_001` —
   `processGeoJSONPolyline`, `processMultiplePolylines`;
 * `src/components/Map.tsx` — `clearRouteElements`, `updateVehicleMarkers`,
   `drawPolylinesFromGeoJSON`, `fetchAllVehicles` (namespace `MapTsx`);
 * the Map component variant in `src/unnamed/part_001` —
   `clearRouteElements`, `drawPolylinesFromGeoJSON`, `updatePolylines`
   (namespace `Part001`).

JavaScript numbers are modelled as exact values: machine integers arising in
the bit-twiddling decoder as `Int` with explicit 32-bit wrapping where the
JS `<<`, `>>`, `&` operators wrap, and coordinates as `ℚ`.  The JS value
`NaN`/`undefined` produced by `parseFloat` on a missing field, or by reading
an out-of-range array index, is modelled as `none` in `Option ℚ`.
-/

/-! ## JavaScript number semantics helpers -/

/-- JS `ToInt32`: wrap an integer into the signed 32-bit range, as the JS
bitwise operators do with their operands. -/
def toInt32 (n : Int) : Int :=
  (n + 2 ^ 31) % 2 ^ 32 - 2 ^ 31

/-- JS `x << s` on an operand already in `[0, 31]` (the masked 5-bit group):
the shift count is taken mod 32 and the result wraps to signed 32 bits. -/
def jsShl (a : Int) (shift : Nat) : Int :=
  toInt32 (a * 2 ^ (shift % 32))

/-- JS `b & 0x1f` for an integer operand: the low five bits of the 32-bit
representation, i.e. the nonnegative residue mod 32. -/
def jsAnd31 (b : Int) : Int :=
  b % 32

/-- JS `x >> 1` (signed shift): arithmetic right shift of the 32-bit
representative, i.e. floor division by 2 after wrapping. -/
def jsShr1 (x : Int) : Int :=
  Int.fdiv (toInt32 x) 2

/-- JS `(result & 1) ? ~(result >> 1) : (result >> 1)` — the zig-zag step of
the decoder, on the accumulated integer.  `~x` is `-x - 1`. -/
def zigzag (result : Int) : Int :=
  if result % 2 = 1 then -(jsShr1 result) - 1 else jsShr1 result

/-- A JS number that may be `NaN`/`undefined` (`none`). -/
abbrev JNum := Option ℚ

/-! ## `decodePolyline` (src/lib/polylineUtils.ts lines 5–46)

The inner `do … while (b >= 0x20)` varint-group loop.  The string is carried
as the list of remaining UTF-16 code units; reading past the end of the
string (`encoded.charCodeAt(index++)` with `index ≥ length`) yields `NaN`,
for which `NaN & 0x1f` is `0` (so `result` is unchanged) and `NaN >= 0x20`
is `false` (so the loop exits); that is the `[]` case below.  Note the
source initializes `result` to `1`, not `0`. -/
def decodeGroup : List Nat → Int → Nat → Int × List Nat
  | [], result, _ => (result, [])
  | c :: rest, result, shift =>
    let b : Int := (c : Int) - 63
    let result := result + jsShl (jsAnd31 b) shift
    if 0x20 ≤ b then decodeGroup rest result (shift + 5) else (result, rest)

/-- The outer `while (index < encoded.length)` loop of `decodePolyline`.
`fuel` bounds the number of outer iterations; since every iteration consumes
at least one code unit, `fuel = length` never runs out (the middle case is
unreachable from `decodePolyline`, see `decodeLoop_fuel_irrelevant`). -/
def decodeLoop (factor : ℚ) : Nat → List Nat → Int → Int → List (ℚ × ℚ)
  | _, [], _, _ => []
  | 0, _ :: _, _, _ => []
  | fuel + 1, c :: rest, lat, lng =>
    let p1 := decodeGroup (c :: rest) 1 0
    let lat := lat + zigzag p1.1
    let p2 := decodeGroup p1.2 1 0
    let lng := lng + zigzag p2.1
    ((lat : ℚ) / factor, (lng : ℚ) / factor) :: decodeLoop factor fuel p2.2 lat lng

/-- Embedding of `decodePolyline(encoded, precision = 5)` from `src/lib/polylineUtils.ts`
(also verbatim in `src/unnamed/part_001`).  `if (!encoded) return []` is the
empty-string guard; `factor = Math.pow(10, precision)`; each outer iteration
decodes one latitude group and one longitude group (both with `result`
initialized to `1`), zig-zag-decodes them, accumulates the running totals
and pushes `[lat / factor, lng / factor]`. -/
def decodePolyline (encoded : String) (precision : Nat := 5) : List (ℚ × ℚ) :=
  if encoded = "" then []
  else
    let codes := encoded.data.map Char.toNat
    let factor : ℚ := 10 ^ precision
    decodeLoop factor codes.length codes 0 0

/-! ## `isEncodedPolyline` (src/lib/polylineUtils.ts lines 51–59) -/

/-- Character class of the regex `^[a-zA-Z0-9_`~@\-\.]*$` used by
`isEncodedPolyline` (the class contains the backquote, `~`, `@`, `-`, `.`,
`_`, letters and digits). -/
def isPolylineChar (c : Char) : Bool :=
  let n := c.toNat
  (48 ≤ n && n ≤ 57) || (65 ≤ n && n ≤ 90) || (97 ≤ n && n ≤ 122) ||
    n = 95 || n = 96 || n = 126 || n = 64 || n = 45 || n = 46

/-- Embedding of `isEncodedPolyline(str)`: `str` must be non-falsy, strictly longer than
10 characters, and every character must match the polyline character set. -/
def isEncodedPolyline (str : String) : Bool :=
  if str = "" then false
  else decide (10 < str.length) && str.data.all isPolylineChar

/-! ## `processPolylineData` (src/lib/polylineUtils.ts lines 64–92)

The duck-typed `any` input is modelled as a tagged union of the shapes the
function branches on.  An array element is either a nested array (`tuple`),
a non-array object exposing the four possible coordinate field aliases
(`record`, absent fields are `none`), or some other primitive (`prim`), and
the top-level value is `null`, a string, an array, or some other
non-array/non-string value (`jother`, e.g. a plain object `{}`). -/

inductive JCoord
  | tuple (ns : List ℚ)
  | record (lat latitude lng longitude : Option ℚ)
  | prim
  deriving DecidableEq

inductive PolyInput
  | jnull
  | jstr (s : String)
  | jarr (coords : List JCoord)
  | jother
  deriving DecidableEq

/-- JS `a || b` on number-or-undefined values: `a` unless `a` is falsy
(absent or `0`). -/
def jsOrNum (a b : Option ℚ) : Option ℚ :=
  match a with
  | some v => if v = 0 then b else some v
  | none => b

/-- JS `parseFloat` applied to a number-or-undefined value: a number parses
to itself, `undefined` parses to `NaN` (`none`). -/
def parseFloatJs (v : Option ℚ) : JNum :=
  match v with
  | some q => some q
  | none => none

/-- One element of the array branch of `processPolylineData`: a nested array
of length ≥ 2 is destructured `[lng, lat]` and returned swapped; a non-array
object is read through the `lat || latitude` / `lng || longitude` aliases;
everything else falls through to the `[0, 0]` fallback (as does a too-short
nested array, which skips its `return` and reaches the fallback). -/
def processCoord (coord : JCoord) : JNum × JNum :=
  match coord with
  | .tuple ns =>
    if 2 ≤ ns.length then (parseFloatJs (ns.get? 1), parseFloatJs (ns.get? 0))
    else (some 0, some 0)
  | .record lat latitude lng longitude =>
    (parseFloatJs (jsOrNum lat latitude), parseFloatJs (jsOrNum lng longitude))
  | .prim => (some 0, some 0)

/-- Embedding of `processPolylineData(data)` from `src/lib/polylineUtils.ts`: an array is
mapped element-wise through the coordinate-format handling; a string is
decoded if it is recognized as an encoded polyline; anything else yields the
empty list. -/
def processPolylineData (data : PolyInput) : List (JNum × JNum) :=
  match data with
  | .jarr coords => coords.map processCoord
  | .jstr s =>
    -- decoded points are genuine numbers; embed them into the
    -- number-or-NaN value type
    if isEncodedPolyline s then (decodePolyline s).map (fun p => (some p.1, some p.2))
    else []
  | .jnull => []
  | .jother => []

/-! ## GeoJSON-style polyline data (src/unnamed/part_001 lines 61–179)

The `PolylineData` / `PolylineResponse` record shapes and the
`processGeoJSONPolyline` / `processMultiplePolylines` functions of the
fuller `polylineUtils` variant, which `Map.tsx` imports.  Fields that the
code probes with optional chaining or `||` are `Option`s. -/

structure PolylineGeometry where
  type : String
  coordinates : List (List ℚ)
  deriving DecidableEq

structure PolylineProperties where
  name : String
  type : String
  deriving DecidableEq

structure PolylineFeature where
  geometry : PolylineGeometry
  properties : Option PolylineProperties
  deriving DecidableEq

structure PolylineStyle where
  color : String
  weight : ℚ
  opacity : ℚ
  deriving DecidableEq

structure FeatureCollection where
  features : List PolylineFeature
  type : String
  deriving DecidableEq

structure PolylineData where
  idx : Int
  segment_id : String
  polyline_latlng : Option FeatureCollection
  polyline_style : Option PolylineStyle
  deriving DecidableEq

structure PolylineResponse where
  cmd_name : String
  status : String
  result : List PolylineData
  deriving DecidableEq

structure ProcessedPolyline where
  coordinates : List (JNum × JNum)
  style : PolylineStyle
  segmentId : String
  name : String
  deriving DecidableEq

/-- JS `a || b` on strings: `a` unless it is falsy (the empty string; an
absent value is modelled as `""` as well, since both are falsy here). -/
def jsOrStr (a b : String) : String :=
  if a = "" then b else a

/-- Embedding of `processGeoJSONPolyline(polylineData)`: the guard
`!polylineData?.polyline_latlng?.features?.[0]?.geometry?.coordinates`
rejects a missing feature collection or an empty `features` array (an empty
`coordinates` array is truthy in JS and passes).  A non-`LineString`
geometry yields `null`.  Each coordinate `coord` (GeoJSON `[lng, lat]`
order) is mapped to `[coord[1], coord[0]]`; reading a missing index gives
`undefined` (`none`).  The style falls back to the
`{#3b82f6, 5, 1}` default and the name to
`properties?.name || segment_id || 'Unknown Route'`. -/
def processGeoJSONPolyline (polylineData : PolylineData) : Option ProcessedPolyline :=
  match polylineData.polyline_latlng with
  | none => none
  | some coll =>
    match coll.features.head? with
    | none => none
    | some feature =>
      if feature.geometry.type = "LineString" then
        let coordinates := feature.geometry.coordinates.map
          (fun coord => (coord.get? 1, coord.get? 0))
        let style := (polylineData.polyline_style).getD ⟨"#3b82f6", 5, 1⟩
        let propName := match feature.properties with
          | some props => props.name
          | none => ""
        let name := jsOrStr propName (jsOrStr polylineData.segment_id ("Unknown Route"))
        some ⟨coordinates, style, polylineData.segment_id, name⟩
      else none

/-- Embedding of `processMultiplePolylines(polylineResponse)`: process every item of the
batch, keeping the non-`null` results in order (`forEach` + `push`). -/
def processMultiplePolylines (polylineResponse : PolylineResponse) : List ProcessedPolyline :=
  polylineResponse.result.filterMap processGeoJSONPolyline

/-! ## API-facing record shapes (src/services/apiService.ts) -/

structure ApiRoute where
  id : String
  name : String
  segment_id : String
  status : String
  startTime : Option String
  endTime : Option String
  deriving DecidableEq

structure RouteStop where
  id : String
  name : String
  latitude : ℚ
  longitude : ℚ
  eta : Option String
  sequence : Int
  deriving DecidableEq

/-- The fields of `VehicleAvlData` that the Map component's marker
reconciliation reads. -/
structure VehicleAvl where
  vehicle_id : String
  latitude : ℚ
  longitude : ℚ
  speed : Option ℚ
  heading : Option ℚ
  timestamp : Option String
  deriving DecidableEq

/-- One group of the `GetAvlData` response: `{vehicle_id, avl_data}` with
`avl_data` possibly missing or not an array (`none`). -/
structure AvlGroup where
  vehicle_id : String
  avl_data : Option (List VehicleAvl)
  deriving DecidableEq

structure AvlResponse where
  result : Option (List AvlGroup)
  deriving DecidableEq

/-! ## Map widget capability calls and entity handles

The Leaflet calls the Map components issue are recorded as an operation
trace: `removeLayer`, `L.polyline(...).addTo(map)` (`addLine`),
`L.marker(...).addTo(map)` for stops and vehicles, `setLatLng`
(`setMarkerPos`) and `fitBounds`.  Layer object identity is modelled by a
`Nat` handle drawn from a fresh-handle counter. -/

inductive MapOp
  | removeLayer (handle : Nat)
  | addLine (handle : Nat)
  | addStopMarker (handle : Nat)
  | addVehicleMarker (handle : Nat)
  | setMarkerPos (handle : Nat) (lat lng : ℚ)
  | fitBounds
  deriving DecidableEq, Repr

/-- A vehicle marker: the Leaflet marker object (its identity as `handle`)
and the position it ends up displaying. -/
structure Marker where
  handle : Nat
  pos : ℚ × ℚ
  deriving DecidableEq

/-- First-match association-list lookup (JS `Map.get`). -/
def lookupA {α : Type} (l : List (String × α)) (k : String) : Option α :=
  match l.find? (fun p => p.1 == k) with
  | some p => some p.2
  | none => none

/-- JS `Map.set`: overwrite in place if the key is present (keeping its
position), append otherwise. -/
def assocSet {α : Type} (l : List (String × α)) (k : String) (v : α) :
    List (String × α) :=
  if (l.find? (fun p => p.1 == k)).isSome then
    l.map (fun p => if p.1 == k then (k, v) else p)
  else l ++ [(k, v)]

/-- The stop-lookup collaborator: `apiService.getStopsForRoute(routeName)`
resolved to its eventual value, `none` when the call failed or returned
`null`. -/
structure StopsApi where
  stopsFor : String → Option (List RouteStop)

namespace MapTsx

/-- The mutable refs of the `src/components/Map.tsx` component that hold map
entities: `routeLinesRef`, `markersRef` (stop markers), `vehicleMarkersRef`
(keyed by vehicle id), plus the fresh-handle counter and whether
`mapRef.current` is non-null. -/
structure MapState where
  routeLines : List Nat
  stopMarkers : List Nat
  vehicleMarkers : List (String × Marker)
  nextHandle : Nat
  mapReady : Bool
  deriving DecidableEq

/-- Embedding of `clearRouteElements(clearPolylines, clearStops)` (Map.tsx lines 95–117):
remove every tracked route line / stop marker from the map (the
`removeLayer` call is guarded by `mapRef.current`) and reset the
corresponding ref arrays. -/
def clearRouteElements (clearPolylines clearStops : Bool) (st : MapState) :
    MapState × List MapOp :=
  let lineOps := if clearPolylines && st.mapReady then st.routeLines.map MapOp.removeLayer else []
  let stopOps := if clearStops && st.mapReady then st.stopMarkers.map MapOp.removeLayer else []
  ({ st with
      routeLines := if clearPolylines then [] else st.routeLines
      stopMarkers := if clearStops then [] else st.stopMarkers },
   lineOps ++ stopOps)

/-- Update the stored position of the marker keyed `k` (the effect of the
final animation frame's `setLatLng` on the existing marker object). -/
def setMarkerLatLng (l : List (String × Marker)) (k : String) (pos : ℚ × ℚ) :
    List (String × Marker) :=
  l.map (fun p => if p.1 == k then (p.1, { p.2 with pos := pos }) else p)

/-- One `vehicles.forEach` iteration of `updateVehicleMarkers`: an existing
marker is animated to the new position over ~2s (ease-out cubic; at
`progress = 1` the displayed position is exactly the new coordinate) — the
marker object is reused, never recreated; an unknown id gets a freshly
created marker added to the map and registered in the ref. -/
def vmStep (acc : MapState × List MapOp) (vehicle : VehicleAvl) : MapState × List MapOp :=
  match lookupA acc.1.vehicleMarkers vehicle.vehicle_id with
  | some existingMarker =>
    ({ acc.1 with vehicleMarkers :=
        (setMarkerLatLng acc.1.vehicleMarkers vehicle.vehicle_id
          (vehicle.latitude, vehicle.longitude)) },
     acc.2 ++ [MapOp.setMarkerPos existingMarker.handle vehicle.latitude vehicle.longitude])
  | none =>
    let h := acc.1.nextHandle
    ({ acc.1 with
        vehicleMarkers := acc.1.vehicleMarkers ++
          [(vehicle.vehicle_id, ⟨h, (vehicle.latitude, vehicle.longitude)⟩)],
        nextHandle := h + 1 },
     acc.2 ++ [MapOp.addVehicleMarker h])

/-- Embedding of `updateVehicleMarkers(vehicles)` (Map.tsx lines 136–200): bail out when
the map is not ready; process every vehicle of the snapshot (update or
create); then remove every tracked marker whose id is not among the
snapshot's vehicle ids. -/
def updateVehicleMarkers (vehicles : List VehicleAvl) (st : MapState) :
    MapState × List MapOp :=
  if st.mapReady = false then (st, [])
  else
    let acc := vehicles.foldl vmStep (st, [])
    let currentVehicleIds := vehicles.map (fun v => v.vehicle_id)
    let removed := acc.1.vehicleMarkers.filter (fun p => !currentVehicleIds.contains p.1)
    ({ acc.1 with
        vehicleMarkers := acc.1.vehicleMarkers.filter (fun p => currentVehicleIds.contains p.1) },
     acc.2 ++ removed.map (fun p => MapOp.removeLayer p.2.handle))

/-- The ad-hoc `ApiRoute` records `drawPolylinesFromGeoJSON` synthesizes
from polyline data when no filter routes are given. -/
def routesFromPolylines (processed : List ProcessedPolyline) : List ApiRoute :=
  processed.map (fun pi =>
    ⟨pi.segmentId, pi.name, pi.segmentId, "active", some "06:00", some "22:00"⟩)

/-- The `route.segment_id === segmentId || route.id === segmentId ||
route.name === name` match used to filter polylines by the selected
routes. -/
def routeMatches (route : ApiRoute) (pi : ProcessedPolyline) : Bool :=
  route.segment_id == pi.segmentId || route.id == pi.segmentId || route.name == pi.name

/-- The skip decision of the drawing loop: with a non-empty filter, a
polyline matching no selected route is skipped. -/
def skipsPolyline (filterRoutes : Option (List ApiRoute)) (pi : ProcessedPolyline) : Bool :=
  match filterRoutes with
  | some fr => !fr.isEmpty && !fr.any (fun route => routeMatches route pi)
  | none => false

/-- Accumulator of the drawing loop: the evolving map state, the operation
trace, and `allBounds.length` (one bounds entry per drawn line). -/
structure DrawAcc where
  st : MapState
  ops : List MapOp
  boundsCount : Nat

/-- One `routeStops.forEach` iteration: create a stop marker on the map and
track it in `markersRef`. -/
def stopMarkerStep (p : MapState × List MapOp) (_stop : RouteStop) :
    MapState × List MapOp :=
  let mh := p.1.nextHandle
  ({ p.1 with stopMarkers := p.1.stopMarkers ++ [mh], nextHandle := mh + 1 },
   p.2 ++ [MapOp.addStopMarker mh])

/-- One iteration of the `processedPolylines.forEach` drawing loop: skip the
polyline when a non-empty filter matches no route; with non-empty
coordinates draw the line (pushing it onto `routeLinesRef` and its bounds
onto `allBounds`) and draw a stop marker for each resolved stop of the
route. -/
def drawStep (filterRoutes : Option (List ApiRoute))
    (routeStopsMap : List (String × List RouteStop))
    (acc : DrawAcc) (pi : ProcessedPolyline) : DrawAcc :=
  if skipsPolyline filterRoutes pi then acc
  else if pi.coordinates.isEmpty then acc
  else
    let h := acc.st.nextHandle
    let st := { acc.st with routeLines := acc.st.routeLines ++ [h], nextHandle := h + 1 }
    let ops := acc.ops ++ [MapOp.addLine h]
    let bc := acc.boundsCount + 1
    match lookupA routeStopsMap pi.segmentId with
    | some routeStops =>
      if routeStops.isEmpty then ⟨st, ops, bc⟩
      else
        let p := routeStops.foldl stopMarkerStep (st, ops)
        ⟨p.1, p.2, bc⟩
    | none => ⟨st, ops, bc⟩

/-- Embedding of `drawPolylinesFromGeoJSON(polylineResponse, filterRoutes?)` (Map.tsx
lines 233–384): bail out when the map is not ready; clear all route lines
and stop markers; process the batch; resolve stops for the filter routes
(or routes synthesized from the batch) through the stop collaborator into
`routeStopsMap`, keyed `route.segment_id || route.id`; run the drawing
loop; finally call `fitBounds` once when at least one line was drawn. -/
def drawPolylinesFromGeoJSON (api : StopsApi) (polylineResponse : PolylineResponse)
    (filterRoutes : Option (List ApiRoute)) (st : MapState) : MapState × List MapOp :=
  if st.mapReady = false then (st, [])
  else
    let cleared := clearRouteElements true true st
    let processed := processMultiplePolylines polylineResponse
    let routesToFetchStops :=
      match filterRoutes with
      | some fr => if !fr.isEmpty then fr else routesFromPolylines processed
      | none => routesFromPolylines processed
    let routeStopsMap := routesToFetchStops.foldl
      (fun m route =>
        match api.stopsFor route.name with
        | some stops => assocSet m (jsOrStr route.segment_id route.id) stops
        | none => m)
      []
    let acc := processed.foldl (drawStep filterRoutes routeStopsMap)
      ⟨cleared.1, cleared.2, 0⟩
    (acc.st, if acc.boundsCount ≠ 0 then acc.ops ++ [MapOp.fitBounds] else acc.ops)

/-- Embedding of `fetchAllVehicles` (Map.tsx lines 508–533): `getAvlData()` resolves to
`null` on any network/CORS/parse failure (its `catch` returns `null`), in
which case the `avlData?.result` guard fails and nothing is done — the
`catch` in `fetchAllVehicles` itself only logs.  On success the grouped
samples are flattened with `vehicle_id` overridden by the group id when
truthy, and handed to `updateVehicleMarkers`. -/
def fetchAllVehicles (avlData : Option AvlResponse) (st : MapState) :
    MapState × List MapOp :=
  match avlData with
  | none => (st, [])
  | some resp =>
    match resp.result with
    | none => (st, [])
    | some groups =>
      let allVehicles := groups.flatMap (fun g =>
        match g.avl_data with
        | some l => l.map (fun v => { v with vehicle_id := jsOrStr g.vehicle_id v.vehicle_id })
        | none => [])
      updateVehicleMarkers allVehicles st

/-- A sequence of `drawPolylinesFromGeoJSON` passes (as triggered by
successive route-selection changes), accumulating the whole operation
trace. -/
def runDrawSession (api : StopsApi)
    (passes : List (PolylineResponse × Option (List ApiRoute)))
    (st : MapState) : MapState × List MapOp :=
  passes.foldl
    (fun acc pass =>
      let r := drawPolylinesFromGeoJSON api pass.1 pass.2 acc.1
      (r.1, acc.2 ++ r.2))
    (st, [])

end MapTsx

namespace Part001

/-- The collaborators the part_001 Map variant awaits:
`apiService.getStopsForRoute` and `apiService.getGeoJSONPolylines` (the
latter never rejects — its `catch` returns an empty-result response). -/
structure Env where
  stopsFor : String → Option (List RouteStop)
  geojsonPolylines : PolylineResponse

/-- The refs of the Map variant in `src/unnamed/part_001`: the entity refs
plus the polyline-state tracking refs `polylinesDrawnRef`,
`currentPolylineDataRef` (`none` = `null`), `currentSelectedRoutesRef`, and
the per-route stops cache `routeStopsCacheRef`. -/
structure MapState where
  routeLines : List Nat
  stopMarkers : List Nat
  nextHandle : Nat
  mapReady : Bool
  polylinesDrawn : Bool
  currentPolylineData : Option PolylineResponse
  currentSelectedRoutes : List ApiRoute
  routeStopsCache : List (String × List RouteStop)
  deriving DecidableEq

/-- Embedding of `clearRouteElements(clearPolylines, clearStops)` (part_001 lines
340–364): like the Map.tsx version, but clearing the polylines also resets
`polylinesDrawnRef.current = false` and
`currentPolylineDataRef.current = null`. -/
def clearRouteElements (clearPolylines clearStops : Bool) (st : MapState) :
    MapState × List MapOp :=
  let lineOps := if clearPolylines && st.mapReady then st.routeLines.map MapOp.removeLayer else []
  let stopOps := if clearStops && st.mapReady then st.stopMarkers.map MapOp.removeLayer else []
  ({ st with
      routeLines := if clearPolylines then [] else st.routeLines
      stopMarkers := if clearStops then [] else st.stopMarkers
      polylinesDrawn := if clearPolylines then false else st.polylinesDrawn
      currentPolylineData := if clearPolylines then none else st.currentPolylineData },
   lineOps ++ stopOps)

/-- Accumulator of the part_001 drawing loop (same shape as the Map.tsx
one, over this variant's state). -/
structure DrawAcc where
  st : MapState
  ops : List MapOp
  boundsCount : Nat

/-- One `routeStops.forEach` iteration of the part_001 variant. -/
def stopMarkerStep (p : MapState × List MapOp) (_stop : RouteStop) :
    MapState × List MapOp :=
  let mh := p.1.nextHandle
  ({ p.1 with stopMarkers := p.1.stopMarkers ++ [mh], nextHandle := mh + 1 },
   p.2 ++ [MapOp.addStopMarker mh])

/-- One iteration of the part_001 `processedPolylines.forEach` drawing loop
(textually the same loop as in Map.tsx). -/
def drawStep (filterRoutes : Option (List ApiRoute))
    (routeStopsMap : List (String × List RouteStop))
    (acc : DrawAcc) (pi : ProcessedPolyline) : DrawAcc :=
  if MapTsx.skipsPolyline filterRoutes pi then acc
  else if pi.coordinates.isEmpty then acc
  else
    let h := acc.st.nextHandle
    let st := { acc.st with routeLines := acc.st.routeLines ++ [h], nextHandle := h + 1 }
    let ops := acc.ops ++ [MapOp.addLine h]
    let bc := acc.boundsCount + 1
    match lookupA routeStopsMap pi.segmentId with
    | some routeStops =>
      if routeStops.isEmpty then ⟨st, ops, bc⟩
      else
        let p := routeStops.foldl stopMarkerStep (st, ops)
        ⟨p.1, p.2, bc⟩
    | none => ⟨st, ops, bc⟩

/-- Embedding of `drawPolylinesFromGeoJSON` (part_001 lines 490–662): as in Map.tsx, but
the stops for each route are first looked up in `routeStopsCacheRef`; only
cache misses go through the stop collaborator, and fetched stop lists are
written back to the cache.  Note that the initial
`clearRouteElements(true, true)` resets `polylinesDrawnRef` and
`currentPolylineDataRef`. -/
def drawPolylinesFromGeoJSON (env : Env) (polylineResponse : PolylineResponse)
    (filterRoutes : Option (List ApiRoute)) (st : MapState) : MapState × List MapOp :=
  if st.mapReady = false then (st, [])
  else
    let cleared := clearRouteElements true true st
    let processed := processMultiplePolylines polylineResponse
    let routesToFetchStops :=
      match filterRoutes with
      | some fr => if !fr.isEmpty then fr else MapTsx.routesFromPolylines processed
      | none => MapTsx.routesFromPolylines processed
    let cachePass := routesToFetchStops.foldl
      (fun (acc : List (String × List RouteStop) × List ApiRoute) route =>
        let cacheKey := jsOrStr route.segment_id route.id
        match lookupA cleared.1.routeStopsCache cacheKey with
        | some stops => (assocSet acc.1 cacheKey stops, acc.2)
        | none => (acc.1, acc.2 ++ [route]))
      ([], [])
    let fetchPass := cachePass.2.foldl
      (fun (acc : List (String × List RouteStop) × List (String × List RouteStop)) route =>
        match env.stopsFor route.name with
        | some stops =>
          let cacheKey := jsOrStr route.segment_id route.id
          (assocSet acc.1 cacheKey stops, assocSet acc.2 cacheKey stops)
        | none => acc)
      (cleared.1.routeStopsCache, cachePass.1)
    let st1 := { cleared.1 with routeStopsCache := fetchPass.1 }
    let routeStopsMap := fetchPass.2
    let acc := processed.foldl (drawStep filterRoutes routeStopsMap) ⟨st1, cleared.2, 0⟩
    (acc.st, if acc.boundsCount ≠ 0 then acc.ops ++ [MapOp.fitBounds] else acc.ops)

/-- Embedding of `drawRoutePaths(routes)` (part_001 lines 665–784): guard on map and a
non-empty route list, clear, fetch the GeoJSON polylines, and — since
`getGeoJSONPolylines` always yields a `result` array — either return (empty
result) or delegate to `drawPolylinesFromGeoJSON` and return; the legacy
fallback below that delegation is unreachable. -/
def drawRoutePaths (env : Env) (routes : List ApiRoute) (st : MapState) :
    MapState × List MapOp :=
  if st.mapReady = false || routes.isEmpty then (st, [])
  else
    let cleared := clearRouteElements true true st
    let polylineData := env.geojsonPolylines
    if polylineData.result.isEmpty then cleared
    else
      let r := drawPolylinesFromGeoJSON env polylineData (some routes) cleared.1
      (r.1, cleared.2 ++ r.2)

/-- JS `JSON.stringify(currentPolylineDataRef.current) !==
JSON.stringify(polylineData)` as an equality: two present responses compare
by structure; a `null` ref (serialized `"null"`) never equals an `undefined`
prop (serialized as the JS value `undefined`), nor a present one — so the
comparison yields "unchanged" only when both sides are present and
structurally equal. -/
def jsonEqResp (c d : Option PolylineResponse) : Bool :=
  match c, d with
  | some a, some b => a == b
  | _, _ => false

/-- Embedding of `updatePolylines` (part_001 lines 921–963): compute the two change
flags by JSON comparison against the tracking refs; with polyline data
present redraw only when the data changed, the selection changed, or
nothing is drawn yet; without data fall back to `drawRoutePaths` for a
non-empty selection under the same guard; with no data and no selection
clear everything once and reset the tracking state and cache. -/
def updatePolylines (env : Env) (polylineData : Option PolylineResponse)
    (selectedRoutesForMap : List ApiRoute) (st : MapState) : MapState × List MapOp :=
  let hasPolylineDataChanged := !(jsonEqResp st.currentPolylineData polylineData)
  let hasSelectedRoutesChanged := !(st.currentSelectedRoutes == selectedRoutesForMap)
  match polylineData with
  | some pd =>
    if hasPolylineDataChanged || hasSelectedRoutesChanged || !st.polylinesDrawn then
      let st1 := { st with
        currentPolylineData := some pd
        currentSelectedRoutes := selectedRoutesForMap }
      let r := drawPolylinesFromGeoJSON env pd
        (if !selectedRoutesForMap.isEmpty then some selectedRoutesForMap else none) st1
      ({ r.1 with polylinesDrawn := true }, r.2)
    else (st, [])
  | none =>
    if !selectedRoutesForMap.isEmpty then
      if hasSelectedRoutesChanged || !st.polylinesDrawn then
        let st1 := { st with currentSelectedRoutes := selectedRoutesForMap }
        let r := drawRoutePaths env selectedRoutesForMap st1
        ({ r.1 with polylinesDrawn := true }, r.2)
      else (st, [])
    else if st.polylinesDrawn then
      let r := clearRouteElements true true st
      ({ r.1 with
          polylinesDrawn := false
          currentPolylineData := none
          currentSelectedRoutes := []
          routeStopsCache := [] }, r.2)
    else (st, [])

end Part001

/-! ## Concrete scenario data used by the counterexample theorems -/

/-- The standard polyline test vector named by the spec. -/
def testVector : String := "_p~iF~ps|U_ulLnnqC_mqNvxq`@"

/-- The canonical reference points the spec says `testVector` decodes to
(this definition follows the spec's words, for comparison with what the
code actually returns). -/
def referencePoints : List (ℚ × ℚ) :=
  [(38.5, -120.2), (40.7, -120.95), (43.252, -126.453)]

/-- A minimal valid polyline batch item: one `LineString` feature with two
points, for the named segment. -/
def oneLineData (seg : String) : PolylineData :=
  ⟨0, seg, some ⟨[⟨⟨"LineString", [[1, 2], [3, 4]]⟩, none⟩], "FeatureCollection"⟩, none⟩

/-- A batch carrying a single drawable route segment `"A"`. -/
def oneLineResp : PolylineResponse := ⟨"GetRoutePolyline", "OK", [oneLineData "A"]⟩

/-- A batch carrying three drawable route segments. -/
def threeLineResp : PolylineResponse :=
  ⟨"GetRoutePolyline", "OK", [oneLineData "A", oneLineData "B", oneLineData "C"]⟩

/-- A route selection entry matching the segment of the same name. -/
def routeOf (seg : String) : ApiRoute := ⟨seg, seg, seg, "active", none, none⟩

/-- A stop collaborator that resolves no stops (every fetch fails /
returns `null`). -/
def noStops : StopsApi := ⟨fun _ => none⟩

/-- Environment for the part_001 component: no stops resolve, and the
GeoJSON polyline endpoint returns an empty batch. -/
def p1Env : Part001.Env := ⟨fun _ => none, ⟨"GetRoutePolyline", "OK", []⟩⟩

/-- Fresh part_001 map state: map initialized, nothing drawn or tracked. -/
def p1St0 : Part001.MapState := ⟨[], [], 0, true, false, none, [], []⟩

/-- Fresh Map.tsx map state: map initialized, no entities. -/
def tsxSt0 : MapTsx.MapState := ⟨[], [], [], 0, true⟩

/-- A Map.tsx state that is already displaying one vehicle marker
(id `"v1"`, marker handle 7). -/
def tsxStWithVehicle : MapTsx.MapState := ⟨[], [], [("v1", ⟨7, (1, 2)⟩)], 8, true⟩

/-- Integer-level twin of `decodeLoop` (collecting the scaled running
totals before the division by `factor`); used only to evaluate the decoder
by kernel computation, see `decodeLoop_eq_intLoop`. -/
def decodeLoopInt : Nat → List Nat → Int → Int → List (Int × Int)
  | _, [], _, _ => []
  | 0, _ :: _, _, _ => []
  | fuel + 1, c :: rest, lat, lng =>
    let p1 := decodeGroup (c :: rest) 1 0
    let lat := lat + zigzag p1.1
    let p2 := decodeGroup p1.2 1 0
    let lng := lng + zigzag p2.1
    (lat, lng) :: decodeLoopInt fuel p2.2 lat lng

/-! ## Helper lemmas on association lists and the decoder loops -/

theorem lookupA_cons {α : Type} (k' : String) (v : α) (l : List (String × α)) (k : String) :
    lookupA ((k', v) :: l) k = if k' == k then some v else lookupA l k := by
  cases h : k' == k <;> simp [lookupA, List.find?, h]

theorem parseFloatJs_id (v : Option ℚ) : parseFloatJs v = v := by
  cases v <;> rfl

theorem decodeLoop_eq_intLoop (factor : ℚ) (fuel : Nat) (l : List Nat) (lat lng : Int) :
    decodeLoop factor fuel l lat lng =
      (decodeLoopInt fuel l lat lng).map (fun p => ((p.1 : ℚ) / factor, (p.2 : ℚ) / factor)) := by
  induction fuel generalizing l lat lng with
  | zero => cases l <;> simp [decodeLoop, decodeLoopInt]
  | succ fuel ih =>
    cases l with
    | nil => simp [decodeLoop, decodeLoopInt]
    | cons c rest => simp [decodeLoop, decodeLoopInt, ih]

theorem decodeGroup_length_le (l : List Nat) (result : Int) (shift : Nat) :
    (decodeGroup l result shift).2.length ≤ l.length := by
  induction l generalizing result shift with
  | nil => simp [decodeGroup]
  | cons c rest ih =>
    simp only [decodeGroup]
    by_cases h : (0x20 : Int) ≤ (c : Int) - 63
    · simp only [if_pos h]
      exact le_trans (ih _ _) (Nat.le_succ _)
    · simp only [if_neg h, List.length_cons]
      exact Nat.le_succ _

theorem decodeGroup_cons_length_le (c : Nat) (rest : List Nat) (result : Int) (shift : Nat) :
    (decodeGroup (c :: rest) result shift).2.length ≤ rest.length := by
  simp only [decodeGroup]
  by_cases h : (0x20 : Int) ≤ (c : Int) - 63
  · simp only [if_pos h]
    exact decodeGroup_length_le _ _ _
  · simp [if_neg h]

theorem decodeLoop_length_le (factor : ℚ) (fuel : Nat) (l : List Nat) (lat lng : Int) :
    (decodeLoop factor fuel l lat lng).length ≤ l.length := by
  induction fuel generalizing l lat lng with
  | zero => cases l <;> simp [decodeLoop]
  | succ fuel ih =>
    cases l with
    | nil => simp [decodeLoop]
    | cons c rest =>
      simp only [decodeLoop, List.length_cons, Nat.succ_le_succ_iff]
      calc (decodeLoop factor fuel (decodeGroup (decodeGroup (c :: rest) 1 0).2 1 0).2 _ _).length
          ≤ (decodeGroup (decodeGroup (c :: rest) 1 0).2 1 0).2.length := ih _ _ _
        _ ≤ (decodeGroup (c :: rest) 1 0).2.length := decodeGroup_length_le _ _ _
        _ ≤ rest.length := decodeGroup_cons_length_le _ _ _ _

/-! ## Claim theorems -/

set_option maxRecDepth 100000 in
set_option maxHeartbeats 1000000 in
/-- C1: the claim says `decodePolyline` on the standard test vector with
precision 5 returns `[(38.5, -120.2), (40.7, -120.95), (43.252, -126.453)]`.
It does not: because the source initializes the varint accumulator `result`
to `1` instead of `0` (while still subtracting only 63 from each char
code), every decoded delta is corrupted, and the code returns
`[(-38.50001, 120.2), (-40.70002, 120.95), (-43.25203, 126.453)]`. -/
theorem c1_decode_test_vector_eval :
    decodePolyline testVector 5 =
      [(-(38.50001 : ℚ), (120.2 : ℚ)), (-(40.70002 : ℚ), (120.95 : ℚ)),
        (-(43.25203 : ℚ), (126.453 : ℚ))] ∧
    decodePolyline testVector 5 ≠ referencePoints := by
  have hcodes : testVector.data.map Char.toNat =
      [95, 112, 126, 105, 70, 126, 112, 115, 124, 85, 95, 117, 108, 76, 110, 110, 113,
        67, 95, 109, 113, 78, 118, 120, 113, 96, 64] := by decide
  have hint : decodeLoopInt 27
      [95, 112, 126, 105, 70, 126, 112, 115, 124, 85, 95, 117, 108, 76, 110, 110, 113,
        67, 95, 109, 113, 78, 118, 120, 113, 96, 64] 0 0 =
      [(-3850001, 12020000), (-4070002, 12095000), (-4325203, 12645300)] := by decide
  have heval : decodePolyline testVector 5 =
      [(-(38.50001 : ℚ), (120.2 : ℚ)), (-(40.70002 : ℚ), (120.95 : ℚ)),
        (-(43.25203 : ℚ), (126.453 : ℚ))] := by
    unfold decodePolyline
    rw [if_neg (by decide)]
    simp only [hcodes, List.length_cons, List.length_nil, decodeLoop_eq_intLoop]
    norm_num [hint]
  refine ⟨heval, ?_⟩
  rw [heval]
  intro h
  have := congrArg (fun l => (l.headI : ℚ × ℚ).1) h
  simp [referencePoints] at this
  norm_num at this

/-- C10: `decodePolyline` is total — it is defined for every string (the
fuel of the outer loop is the string length, and every outer iteration
consumes at least one code unit; reading past the end yields the NaN case
of `decodeGroup`, which ends the group loop) — and it always returns a
finite list of at most one point per input character. -/
theorem c10_decode_total_length_le (s : String) (precision : Nat) :
    (decodePolyline s precision).length ≤ s.length := by
  unfold decodePolyline
  by_cases h : s = ""
  · simp [h]
  · simp only [if_neg h]
    calc (decodeLoop ((10 : ℚ) ^ precision) (s.data.map Char.toNat).length
            (s.data.map Char.toNat) 0 0).length
        ≤ (s.data.map Char.toNat).length := decodeLoop_length_le _ _ _ _ _
      _ = s.length := by rw [List.length_map]; rfl

/-- C2: for every array of numeric tuples that all have at least two
elements, `processPolylineData` returns, in the same order, the pairs with
the first two elements swapped — input `[lng, lat(, elevation)]` becomes
`(lat, lng)` and any third element is discarded (the output reads only
indices 0 and 1). -/
theorem c2_tuple_axis_swap (tuples : List (List ℚ))
    (h : ∀ t ∈ tuples, 2 ≤ t.length) :
    processPolylineData (.jarr (tuples.map .tuple)) =
      tuples.map (fun t => (t.get? 1, t.get? 0)) ∧
    (processPolylineData (.jarr (tuples.map .tuple))).length = tuples.length := by
  have hmain : processPolylineData (.jarr (tuples.map .tuple)) =
      tuples.map (fun t => (t.get? 1, t.get? 0)) := by
    simp only [processPolylineData, List.map_map]
    refine List.map_congr_left ?_
    intro t ht
    simp [Function.comp, processCoord, if_pos (h t ht), parseFloatJs_id]
  exact ⟨hmain, by rw [hmain]; simp⟩

/-- Witness for C2 at the spec's example input `[[-83.94, 43.65]]`, whose
output is `[(43.65, -83.94)]`. -/
theorem c2_tuple_axis_swap_witness :
    (∀ t ∈ [[(-83.94 : ℚ), 43.65]], 2 ≤ t.length) ∧
    processPolylineData (.jarr [JCoord.tuple [(-83.94 : ℚ), 43.65]]) =
      [(some (43.65 : ℚ), some (-83.94 : ℚ))] :=
  have h : ∀ t ∈ [[(-83.94 : ℚ), 43.65]], 2 ≤ t.length := fun t ht => by
    rw [List.mem_singleton] at ht
    subst ht
    exact Nat.le_refl 2
  ⟨h, ((c2_tuple_axis_swap [[(-83.94 : ℚ), 43.65]] h).1).trans (by simp)⟩

/-- C3: `processPolylineData` maps `null`, the empty string, a non-array
object, and any string not recognized by `isEncodedPolyline` (such as
`"<html>"`) to the empty sequence; its embedding is a total function, so no
input in these classes can throw. -/
theorem c3_garbage_inputs_empty :
    (processPolylineData .jnull = [] ∧ processPolylineData (.jstr "") = [] ∧
      processPolylineData .jother = []) ∧
    ∀ s : String, isEncodedPolyline s = false → processPolylineData (.jstr s) = [] := by
  refine ⟨⟨rfl, by decide, rfl⟩, ?_⟩
  intro s h
  simp [processPolylineData, h]

/-- Witness for C3 at the concrete garbage string `"<html>"`. -/
theorem c3_garbage_inputs_empty_witness :
    isEncodedPolyline ("<html>") = false ∧ processPolylineData (.jstr ("<html>")) = [] :=
  ⟨by decide, c3_garbage_inputs_empty.2 ("<html>") (by decide)⟩

/-- C4 counterexample: a record carrying none of the `lat`/`latitude`,
`lng`/`longitude` aliases produces the point `(NaN, NaN)` and that point IS
in the returned sequence — the output is `[(NaN, NaN)]`, not `[]`, so the
claimed filtering does not happen. -/
theorem c4_nan_record_included_cex :
    processPolylineData (.jarr [.record none none none none]) = [(none, none)] ∧
    processPolylineData (.jarr [.record none none none none]) ≠ [] := by
  refine ⟨rfl, ?_⟩
  simp [processPolylineData]

/-- C4 (amended): a record with neither alias pair yields `(NaN, NaN)` and
that pair is kept in the output at the record's position; the output always
has exactly the input's length (the array branch is a plain `map` with no
filtering). -/
theorem c4_nan_record_kept (coords : List JCoord) :
    (processPolylineData (.jarr coords)).length = coords.length ∧
    ∀ i : Nat, coords.get? i = some (.record none none none none) →
      (processPolylineData (.jarr coords)).get? i = some (none, none) := by
  constructor
  · simp [processPolylineData]
  · intro i hi
    rw [List.get?_eq_getElem?] at hi ⊢
    simp only [processPolylineData, List.getElem?_map, hi, Option.map_some']
    rfl

/-- Witness for C4 (amended) at a one-record array. -/
theorem c4_nan_record_kept_witness :
    [JCoord.record none none none none].get? 0 = some (.record none none none none) ∧
    (processPolylineData (.jarr [.record none none none none])).get? 0 = some (none, none) :=
  ⟨rfl, (c4_nan_record_kept [.record none none none none]).2 0 rfl⟩

/-- C8 counterexample: a failed telemetry poll (`getAvlData()` resolved to
`null`) does NOT clear the rendered vehicle markers — starting from a state
displaying the marker of vehicle `"v1"`, the state after the failed poll
still holds it, unchanged. -/
theorem c8_failed_poll_keeps_markers_cex :
    (MapTsx.fetchAllVehicles none tsxStWithVehicle).1.vehicleMarkers ≠ [] ∧
    (MapTsx.fetchAllVehicles none tsxStWithVehicle).1 = tsxStWithVehicle := by
  constructor
  · show tsxStWithVehicle.vehicleMarkers ≠ []
    simp [tsxStWithVehicle]
  · rfl

/-- C8 (amended): on a failed vehicle-telemetry poll the component leaves
every map entity exactly as it was — vehicle markers are NOT cleared, route
lines and stop markers are untouched, and no map operation is issued. -/
theorem c8_failed_poll_no_change (st : MapTsx.MapState) :
    (MapTsx.fetchAllVehicles none st).1.vehicleMarkers = st.vehicleMarkers ∧
    (MapTsx.fetchAllVehicles none st).1.routeLines = st.routeLines ∧
    (MapTsx.fetchAllVehicles none st).1.stopMarkers = st.stopMarkers ∧
    (MapTsx.fetchAllVehicles none st).2 = [] :=
  ⟨rfl, rfl, rfl, rfl⟩

/-! ### Frame lemmas for the Map.tsx reconciliation passes -/

theorem vmStep_route_frame (acc : MapTsx.MapState × List MapOp) (v : VehicleAvl) :
    (MapTsx.vmStep acc v).1.routeLines = acc.1.routeLines ∧
    (MapTsx.vmStep acc v).1.stopMarkers = acc.1.stopMarkers := by
  unfold MapTsx.vmStep
  cases lookupA acc.1.vehicleMarkers v.vehicle_id <;> exact ⟨rfl, rfl⟩

theorem vmFold_route_frame (vs : List VehicleAvl) (acc : MapTsx.MapState × List MapOp) :
    (vs.foldl MapTsx.vmStep acc).1.routeLines = acc.1.routeLines ∧
    (vs.foldl MapTsx.vmStep acc).1.stopMarkers = acc.1.stopMarkers := by
  induction vs generalizing acc with
  | nil => exact ⟨rfl, rfl⟩
  | cons v rest ih =>
    rw [List.foldl_cons]
    exact ⟨((ih _).1).trans (vmStep_route_frame acc v).1,
      ((ih _).2).trans (vmStep_route_frame acc v).2⟩

theorem stopsFold_vehicle_frame (stops : List RouteStop)
    (p : MapTsx.MapState × List MapOp) :
    (stops.foldl MapTsx.stopMarkerStep p).1.vehicleMarkers = p.1.vehicleMarkers := by
  induction stops generalizing p with
  | nil => rfl
  | cons s rest ih =>
    rw [List.foldl_cons]
    exact (ih _).trans rfl

theorem drawStep_vehicle_frame (fr : Option (List ApiRoute))
    (m : List (String × List RouteStop)) (acc : MapTsx.DrawAcc)
    (pi : ProcessedPolyline) :
    (MapTsx.drawStep fr m acc pi).st.vehicleMarkers = acc.st.vehicleMarkers := by
  unfold MapTsx.drawStep
  split
  · rfl
  · split
    · rfl
    · dsimp only
      split
      · split
        · rfl
        · exact stopsFold_vehicle_frame _ _
      · rfl

theorem drawFold_vehicle_frame (fr : Option (List ApiRoute))
    (m : List (String × List RouteStop)) (ps : List ProcessedPolyline)
    (acc : MapTsx.DrawAcc) :
    (ps.foldl (MapTsx.drawStep fr m) acc).st.vehicleMarkers = acc.st.vehicleMarkers := by
  induction ps generalizing acc with
  | nil => rfl
  | cons p rest ih =>
    rw [List.foldl_cons]
    exact (ih _).trans (drawStep_vehicle_frame fr m acc p)

/-! ### Counting lemmas for the camera-fit behaviour -/

theorem stopsFold_count_fitBounds (stops : List RouteStop)
    (p : MapTsx.MapState × List MapOp) :
    ((stops.foldl MapTsx.stopMarkerStep p).2.count MapOp.fitBounds) =
      p.2.count MapOp.fitBounds := by
  induction stops generalizing p with
  | nil => rfl
  | cons s rest ih =>
    rw [List.foldl_cons]
    rw [ih]
    simp [MapTsx.stopMarkerStep, List.count_append, List.count_cons]

theorem stopsFold_routeLines (stops : List RouteStop)
    (p : MapTsx.MapState × List MapOp) :
    (stops.foldl MapTsx.stopMarkerStep p).1.routeLines = p.1.routeLines := by
  induction stops generalizing p with
  | nil => rfl
  | cons s rest ih =>
    rw [List.foldl_cons]
    exact (ih _).trans rfl

theorem drawStep_lines_bounds (fr : Option (List ApiRoute))
    (m : List (String × List RouteStop)) (acc : MapTsx.DrawAcc)
    (pi : ProcessedPolyline) :
    (MapTsx.drawStep fr m acc pi).st.routeLines.length + acc.boundsCount =
      (MapTsx.drawStep fr m acc pi).boundsCount + acc.st.routeLines.length ∧
    ((MapTsx.drawStep fr m acc pi).ops.count MapOp.fitBounds) =
      acc.ops.count MapOp.fitBounds := by
  unfold MapTsx.drawStep
  split
  · exact ⟨by omega, rfl⟩
  · split
    · exact ⟨by omega, rfl⟩
    · dsimp only
      split
      · split
        · constructor
          · simp only [List.length_append, List.length_cons, List.length_nil]
            omega
          · simp [List.count_append, List.count_cons]
        · constructor
          · rw [stopsFold_routeLines]
            simp only [List.length_append, List.length_cons, List.length_nil]
            omega
          · rw [stopsFold_count_fitBounds]
            simp [List.count_append, List.count_cons]
      · constructor
        · simp only [List.length_append, List.length_cons, List.length_nil]
          omega
        · simp [List.count_append, List.count_cons]

theorem drawFold_lines_bounds (fr : Option (List ApiRoute))
    (m : List (String × List RouteStop)) (ps : List ProcessedPolyline)
    (acc : MapTsx.DrawAcc) :
    (ps.foldl (MapTsx.drawStep fr m) acc).st.routeLines.length + acc.boundsCount =
      (ps.foldl (MapTsx.drawStep fr m) acc).boundsCount + acc.st.routeLines.length ∧
    ((ps.foldl (MapTsx.drawStep fr m) acc).ops.count MapOp.fitBounds) =
      acc.ops.count MapOp.fitBounds := by
  induction ps generalizing acc with
  | nil =>
    rw [List.foldl_nil]
    exact ⟨by omega, rfl⟩
  | cons p rest ih =>
    rw [List.foldl_cons]
    obtain ⟨s1, s2⟩ := drawStep_lines_bounds fr m acc p
    obtain ⟨f1, f2⟩ := ih (MapTsx.drawStep fr m acc p)
    exact ⟨by omega, f2.trans s2⟩

theorem clear_count_fitBounds (st : MapTsx.MapState) :
    ((MapTsx.clearRouteElements true true st).2.count MapOp.fitBounds) = 0 := by
  rw [List.count_eq_zero]
  intro hmem
  simp only [MapTsx.clearRouteElements, List.mem_append] at hmem
  rcases hmem with hmem | hmem <;> split at hmem <;> simp_all

/-- The core of the camera-fit accounting: starting from cleared route
lines, the drawing loop keeps `allBounds.length` equal to the number of
drawn lines, and the trailing `fitBounds` is issued exactly when that
number is non-zero. -/
theorem draw_core_count_fitBounds (fr : Option (List ApiRoute))
    (m : List (String × List RouteStop)) (ps : List ProcessedPolyline)
    (st0 : MapTsx.MapState) (ops0 : List MapOp)
    (hlines : st0.routeLines = []) (hcount : ops0.count MapOp.fitBounds = 0) :
    ((if (ps.foldl (MapTsx.drawStep fr m) ⟨st0, ops0, 0⟩).boundsCount ≠ 0 then
        (ps.foldl (MapTsx.drawStep fr m) ⟨st0, ops0, 0⟩).ops ++ [MapOp.fitBounds]
      else (ps.foldl (MapTsx.drawStep fr m) ⟨st0, ops0, 0⟩).ops).count MapOp.fitBounds) =
      if (ps.foldl (MapTsx.drawStep fr m) ⟨st0, ops0, 0⟩).st.routeLines.isEmpty then 0
      else 1 := by
  obtain ⟨h1, h2⟩ := drawFold_lines_bounds fr m ps ⟨st0, ops0, 0⟩
  rw [hlines] at h1
  simp only [List.length_nil, Nat.add_zero] at h1
  by_cases hbc : (ps.foldl (MapTsx.drawStep fr m) ⟨st0, ops0, 0⟩).boundsCount = 0
  · rw [if_neg (by omega)]
    have hempty : (ps.foldl (MapTsx.drawStep fr m) ⟨st0, ops0, 0⟩).st.routeLines = [] := by
      rw [← List.length_eq_zero]
      omega
    rw [hempty]
    simp [h2, hcount]
  · rw [if_pos hbc]
    have hne : (ps.foldl (MapTsx.drawStep fr m) ⟨st0, ops0, 0⟩).st.routeLines ≠ [] := by
      intro hc
      rw [hc] at h1
      simp at h1
      omega
    rw [List.count_append, h2, hcount]
    cases hl : (ps.foldl (MapTsx.drawStep fr m) ⟨st0, ops0, 0⟩).st.routeLines with
    | nil => exact absurd hl hne
    | cons a l => simp [List.count_cons]

/-- C7 (amended): `fitBounds` is requested on every `drawPolylinesFromGeoJSON`
pass that draws at least one route line — exactly once per such pass and
never on a pass that draws none — not only on the first draw of a
session. -/
theorem c7_fitBounds_every_nonempty_draw (api : StopsApi) (resp : PolylineResponse)
    (fr : Option (List ApiRoute)) (st : MapTsx.MapState) (h : st.mapReady = true) :
    ((MapTsx.drawPolylinesFromGeoJSON api resp fr st).2.count MapOp.fitBounds) =
      if (MapTsx.drawPolylinesFromGeoJSON api resp fr st).1.routeLines.isEmpty then 0
      else 1 := by
  unfold MapTsx.drawPolylinesFromGeoJSON
  rw [if_neg (by simp [h])]
  exact draw_core_count_fitBounds _ _ _ _ _ rfl (clear_count_fitBounds st)

/-- Witness for C7 (amended) at a concrete single-route draw. -/
theorem c7_fitBounds_every_nonempty_draw_witness :
    tsxSt0.mapReady = true ∧
    ((MapTsx.drawPolylinesFromGeoJSON noStops oneLineResp none tsxSt0).2.count
        MapOp.fitBounds) =
      if (MapTsx.drawPolylinesFromGeoJSON noStops oneLineResp none tsxSt0).1.routeLines.isEmpty
      then 0 else 1 :=
  ⟨rfl, c7_fitBounds_every_nonempty_draw noStops oneLineResp none tsxSt0 rfl⟩

/-- C7 counterexample: across three sequential draws for three distinct
route selections, each drawing exactly one route line, `fitBounds` is
invoked three times, not once — the full operation trace of the session
makes each per-pass `addLine` and trailing `fitBounds` visible. -/
theorem c7_fit_once_cex :
    (MapTsx.runDrawSession noStops
        [(threeLineResp, some [routeOf ("A")]), (threeLineResp, some [routeOf ("B")]),
          (threeLineResp, some [routeOf ("C")])] tsxSt0).2 =
      [MapOp.addLine 0, MapOp.fitBounds, MapOp.removeLayer 0, MapOp.addLine 1,
        MapOp.fitBounds, MapOp.removeLayer 1, MapOp.addLine 2, MapOp.fitBounds] ∧
    ((MapTsx.runDrawSession noStops
        [(threeLineResp, some [routeOf ("A")]), (threeLineResp, some [routeOf ("B")]),
          (threeLineResp, some [routeOf ("C")])] tsxSt0).2.count MapOp.fitBounds) = 3 := by
  constructor
  · rfl
  · rfl

/-! ### Association-list lemmas for the vehicle-marker map -/

theorem lookupA_append_single {α : Type} (l : List (String × α)) (k' : String) (v : α)
    (k : String) (hne : k' ≠ k) :
    lookupA (l ++ [(k', v)]) k = lookupA l k := by
  induction l with
  | nil =>
    simp only [List.nil_append, lookupA_cons]
    rw [if_neg (by simp [hne])]
  | cons a l ih =>
    rw [List.cons_append, lookupA_cons, lookupA_cons, ih]

theorem lookupA_append_single_self {α : Type} (l : List (String × α)) (k : String)
    (v : α) (hnone : lookupA l k = none) :
    lookupA (l ++ [(k, v)]) k = some v := by
  induction l with
  | nil => simp [lookupA_cons]
  | cons a l ih =>
    rw [lookupA_cons] at hnone
    rw [List.cons_append, lookupA_cons]
    by_cases h : a.1 == k
    · rw [if_pos h] at hnone
      exact absurd hnone (by simp)
    · rw [if_neg h] at hnone ⊢
      exact ih hnone

theorem lookupA_setMarkerLatLng (l : List (String × Marker)) (k' : String)
    (pos : ℚ × ℚ) (k : String) :
    lookupA (MapTsx.setMarkerLatLng l k' pos) k =
      if k' == k then (lookupA l k).map (fun m => { m with pos := pos })
      else lookupA l k := by
  induction l with
  | nil =>
    by_cases h : k' == k <;> simp [MapTsx.setMarkerLatLng, lookupA, h]
  | cons a l ih =>
    obtain ⟨a1, a2⟩ := a
    by_cases hak : a1 = k' <;> by_cases hkk : k' = k <;> by_cases hk : a1 = k <;>
      simp_all [MapTsx.setMarkerLatLng, lookupA_cons, beq_iff_eq]

theorem lookupA_filter_key {α : Type} (l : List (String × α)) (q : String → Bool)
    (k : String) :
    lookupA (l.filter (fun p => q p.1)) k = if q k then lookupA l k else none := by
  induction l with
  | nil => by_cases h : q k <;> simp [lookupA, h]
  | cons a l ih =>
    by_cases hq : q a.1
    · rw [List.filter_cons_of_pos (by simpa using hq), lookupA_cons, lookupA_cons]
      by_cases hk : a.1 == k
      · rw [if_pos hk, if_pos hk, if_pos (by rw [← eq_of_beq hk]; exact hq)]
      · rw [if_neg hk, if_neg hk, ih]
    · rw [List.filter_cons_of_neg (by simpa using hq), ih, lookupA_cons]
      by_cases hk : a.1 == k
      · rw [if_neg (by rw [← eq_of_beq hk]; exact hq), if_neg (by rw [← eq_of_beq hk]; exact hq)]
      · by_cases hqk : q k
        · rw [if_pos hqk, if_pos hqk, if_neg hk]
        · rw [if_neg hqk, if_neg hqk]

theorem mem_of_lookupA {α : Type} (l : List (String × α)) (k : String) (v : α)
    (h : lookupA l k = some v) : (k, v) ∈ l := by
  unfold lookupA at h
  cases hf : l.find? (fun p => p.1 == k) with
  | none => rw [hf] at h; exact absurd h (by simp)
  | some p =>
    rw [hf] at h
    have hp : p.1 == k := by
      have hpred := List.find?_some hf
      simpa using hpred
    have hmem := List.mem_of_find?_eq_some hf
    have : p = (k, v) := by
      obtain ⟨p1, p2⟩ := p
      simp only at h hp
      simp only [Option.some.injEq] at h
      rw [eq_of_beq hp, h]
    rwa [this] at hmem

theorem lookupA_of_mem_nodup {α : Type} (l : List (String × α)) (k : String) (v : α)
    (hmem : (k, v) ∈ l) (hnd : (l.map Prod.fst).Nodup) : lookupA l k = some v := by
  induction l with
  | nil => exact absurd hmem (by simp)
  | cons a l ih =>
    rw [List.map_cons, List.nodup_cons] at hnd
    rcases List.mem_cons.mp hmem with heq | hmem'
    · rw [← heq, lookupA_cons, if_pos (beq_self_eq_true k)]
    · rw [lookupA_cons, if_neg ?_]
      · exact ih hmem' hnd.2
      · intro hbeq
        exact hnd.1 (eq_of_beq hbeq ▸ List.mem_map_of_mem Prod.fst hmem')

/-! ### Lemmas about the vehicle reconciliation fold (`vmStep`) -/

theorem vmStep_lookup_other (acc : MapTsx.MapState × List MapOp) (v : VehicleAvl)
    (k : String) (hne : v.vehicle_id ≠ k) :
    lookupA (MapTsx.vmStep acc v).1.vehicleMarkers k = lookupA acc.1.vehicleMarkers k := by
  unfold MapTsx.vmStep
  cases hl : lookupA acc.1.vehicleMarkers v.vehicle_id with
  | some m =>
    dsimp only
    rw [lookupA_setMarkerLatLng, if_neg (by simp [hne])]
  | none =>
    dsimp only
    exact lookupA_append_single _ _ _ _ hne

theorem vmStep_ops_mono (acc : MapTsx.MapState × List MapOp) (v : VehicleAvl) :
    ∃ t, (MapTsx.vmStep acc v).2 = acc.2 ++ t ∧ ∀ h : Nat, MapOp.removeLayer h ∉ t := by
  unfold MapTsx.vmStep
  cases hl : lookupA acc.1.vehicleMarkers v.vehicle_id with
  | some m => exact ⟨_, rfl, by simp⟩
  | none => exact ⟨_, rfl, by simp⟩

theorem vmFold_ops_mono (vs : List VehicleAvl) (acc : MapTsx.MapState × List MapOp) :
    ∃ t, (vs.foldl MapTsx.vmStep acc).2 = acc.2 ++ t ∧
      ∀ h : Nat, MapOp.removeLayer h ∉ t := by
  induction vs generalizing acc with
  | nil => exact ⟨[], by simp, by simp⟩
  | cons v rest ih =>
    rw [List.foldl_cons]
    obtain ⟨t1, ht1, hn1⟩ := vmStep_ops_mono acc v
    obtain ⟨t2, ht2, hn2⟩ := ih (MapTsx.vmStep acc v)
    refine ⟨t1 ++ t2, ?_, ?_⟩
    · rw [ht2, ht1, List.append_assoc]
    · intro h hmem
      rcases List.mem_append.mp hmem with hm | hm
      · exact hn1 h hm
      · exact hn2 h hm

theorem vmStep_nextHandle_mono (acc : MapTsx.MapState × List MapOp) (v : VehicleAvl) :
    acc.1.nextHandle ≤ (MapTsx.vmStep acc v).1.nextHandle := by
  unfold MapTsx.vmStep
  cases hl : lookupA acc.1.vehicleMarkers v.vehicle_id with
  | some m => exact Nat.le_refl _
  | none => exact Nat.le_succ _

theorem vmFold_nextHandle_mono (vs : List VehicleAvl)
    (acc : MapTsx.MapState × List MapOp) :
    acc.1.nextHandle ≤ (vs.foldl MapTsx.vmStep acc).1.nextHandle := by
  induction vs generalizing acc with
  | nil => exact Nat.le_refl _
  | cons v rest ih =>
    rw [List.foldl_cons]
    exact Nat.le_trans (vmStep_nextHandle_mono acc v) (ih (MapTsx.vmStep acc v))

theorem vmFold_lookup_not_mem (vs : List VehicleAvl)
    (acc : MapTsx.MapState × List MapOp) (k : String)
    (hk : k ∉ vs.map (fun v => v.vehicle_id)) :
    lookupA (vs.foldl MapTsx.vmStep acc).1.vehicleMarkers k =
      lookupA acc.1.vehicleMarkers k := by
  induction vs generalizing acc with
  | nil => rfl
  | cons v rest ih =>
    rw [List.map_cons] at hk
    rw [List.foldl_cons, ih _ (fun hc => hk (List.mem_cons_of_mem _ hc)),
      vmStep_lookup_other acc v k (fun hc => hk (hc ▸ List.mem_cons_self _ _))]

theorem vmFold_lookup_mem (vs : List VehicleAvl)
    (acc : MapTsx.MapState × List MapOp) (k : String)
    (hk : k ∈ vs.map (fun v => v.vehicle_id)) :
    ∃ m' : Marker,
      lookupA (vs.foldl MapTsx.vmStep acc).1.vehicleMarkers k = some m' ∧
      (∀ m, lookupA acc.1.vehicleMarkers k = some m → m'.handle = m.handle) ∧
      (lookupA acc.1.vehicleMarkers k = none →
        MapOp.addVehicleMarker m'.handle ∈ (vs.foldl MapTsx.vmStep acc).2 ∧
        acc.1.nextHandle ≤ m'.handle) := by
  induction vs generalizing acc with
  | nil => simp at hk
  | cons v rest ih =>
    rw [List.foldl_cons]
    by_cases hek : v.vehicle_id = k
    · subst hek
      cases hl : lookupA acc.1.vehicleMarkers v.vehicle_id with
      | some m =>
        have hstep : lookupA (MapTsx.vmStep acc v).1.vehicleMarkers v.vehicle_id =
            some { m with pos := (v.latitude, v.longitude) } := by
          unfold MapTsx.vmStep
          rw [hl]
          dsimp only
          rw [lookupA_setMarkerLatLng, if_pos (beq_self_eq_true _), hl]
          rfl
        by_cases hmem : v.vehicle_id ∈ rest.map (fun v => v.vehicle_id)
        · obtain ⟨m', h1, h2, h3⟩ := ih (MapTsx.vmStep acc v) hmem
          refine ⟨m', h1, ?_, ?_⟩
          · intro m2 hm2
            cases hm2
            exact h2 { m with pos := (v.latitude, v.longitude) } hstep
          · intro hnone
            exact absurd hnone (by simp)
        · refine ⟨{ m with pos := (v.latitude, v.longitude) }, ?_, ?_, ?_⟩
          · rw [vmFold_lookup_not_mem rest _ _ hmem, hstep]
          · intro m2 hm2
            cases hm2
            rfl
          · intro hnone
            exact absurd hnone (by simp)
      | none =>
        have hstep : lookupA (MapTsx.vmStep acc v).1.vehicleMarkers v.vehicle_id =
            some ⟨acc.1.nextHandle, (v.latitude, v.longitude)⟩ := by
          unfold MapTsx.vmStep
          rw [hl]
          dsimp only
          exact lookupA_append_single_self _ _ _ hl
        have hop : MapOp.addVehicleMarker acc.1.nextHandle ∈ (MapTsx.vmStep acc v).2 := by
          unfold MapTsx.vmStep
          rw [hl]
          dsimp only
          simp
        by_cases hmem : v.vehicle_id ∈ rest.map (fun v => v.vehicle_id)
        · obtain ⟨m', h1, h2, h3⟩ := ih (MapTsx.vmStep acc v) hmem
          have hhandle : m'.handle = acc.1.nextHandle := h2 _ hstep
          refine ⟨m', h1, ?_, ?_⟩
          · intro m2 hm2
            exact absurd hm2 (by simp)
          · intro _
            constructor
            · obtain ⟨t, ht, _⟩ := vmFold_ops_mono rest (MapTsx.vmStep acc v)
              rw [ht, hhandle]
              exact List.mem_append_left _ hop
            · rw [hhandle]
        · refine ⟨⟨acc.1.nextHandle, (v.latitude, v.longitude)⟩, ?_, ?_, ?_⟩
          · rw [vmFold_lookup_not_mem rest _ _ hmem, hstep]
          · intro m2 hm2
            exact absurd hm2 (by simp)
          · intro _
            constructor
            · obtain ⟨t, ht, _⟩ := vmFold_ops_mono rest (MapTsx.vmStep acc v)
              rw [ht]
              exact List.mem_append_left _ hop
            · exact Nat.le_refl _
    · have hkrest : k ∈ rest.map (fun v => v.vehicle_id) := by
        rw [List.map_cons] at hk
        exact (List.mem_cons.mp hk).resolve_left (fun hc => hek hc.symm)
      obtain ⟨m', h1, h2, h3⟩ := ih (MapTsx.vmStep acc v) hkrest
      refine ⟨m', h1, ?_, ?_⟩
      · intro m hm
        exact h2 _ ((vmStep_lookup_other acc v k hek).trans hm)
      · intro hnone
        obtain ⟨hop, hle⟩ := h3 ((vmStep_lookup_other acc v k hek).trans hnone)
        exact ⟨hop, Nat.le_trans (vmStep_nextHandle_mono acc v) hle⟩

theorem setMarkerLatLng_cons (a1 : String) (a2 : Marker) (l : List (String × Marker))
    (k : String) (pos : ℚ × ℚ) :
    MapTsx.setMarkerLatLng ((a1, a2) :: l) k pos =
      (if a1 == k then (a1, { a2 with pos := pos }) else (a1, a2)) ::
        MapTsx.setMarkerLatLng l k pos := rfl

theorem filter_setMarkerLatLng (l : List (String × Marker)) (k : String)
    (pos : ℚ × ℚ) (P : String → Bool) (hP : P k = true) :
    (MapTsx.setMarkerLatLng l k pos).filter (fun p => !(P p.1)) =
      l.filter (fun p => !(P p.1)) := by
  induction l with
  | nil => rfl
  | cons a l ih =>
    obtain ⟨a1, a2⟩ := a
    rw [setMarkerLatLng_cons]
    by_cases hak : a1 = k
    · subst hak
      rw [if_pos (beq_self_eq_true a1), List.filter_cons_of_neg (by simp [hP]),
        List.filter_cons_of_neg (by simp [hP]), ih]
    · rw [if_neg (by simp [hak])]
      by_cases hpa : P a1
      · rw [List.filter_cons_of_neg (by simp [hpa]), List.filter_cons_of_neg (by simp [hpa]),
          ih]
      · rw [List.filter_cons_of_pos (by simp [hpa]), List.filter_cons_of_pos (by simp [hpa]),
          ih]

theorem vmStep_filter_frame (acc : MapTsx.MapState × List MapOp) (v : VehicleAvl)
    (P : String → Bool) (hPv : P v.vehicle_id = true) :
    (MapTsx.vmStep acc v).1.vehicleMarkers.filter (fun p => !(P p.1)) =
      acc.1.vehicleMarkers.filter (fun p => !(P p.1)) := by
  unfold MapTsx.vmStep
  cases hl : lookupA acc.1.vehicleMarkers v.vehicle_id with
  | some m =>
    dsimp only
    exact filter_setMarkerLatLng _ _ _ P hPv
  | none =>
    dsimp only
    rw [List.filter_append, List.filter_cons_of_neg (by simp [hPv])]
    simp

theorem vmFold_filter_frame (vs : List VehicleAvl)
    (acc : MapTsx.MapState × List MapOp) (P : String → Bool)
    (hP : ∀ v ∈ vs, P v.vehicle_id = true) :
    (vs.foldl MapTsx.vmStep acc).1.vehicleMarkers.filter (fun p => !(P p.1)) =
      acc.1.vehicleMarkers.filter (fun p => !(P p.1)) := by
  induction vs generalizing acc with
  | nil => rfl
  | cons v rest ih =>
    rw [List.foldl_cons, ih _ (fun w hw => hP w (List.mem_cons_of_mem _ hw)),
      vmStep_filter_frame acc v P (hP v (List.mem_cons_self _ _))]

/-- The body of `updateVehicleMarkers` on a ready map, as an explicit
equation: phase 1 folds the snapshot through `vmStep`, phase 2 splits the
resulting marker map by membership of the snapshot's id set, keeping the
members and removing the rest. -/
theorem updateVehicleMarkers_core (vehicles : List VehicleAvl) (st : MapTsx.MapState)
    (hready : st.mapReady = true) :
    MapTsx.updateVehicleMarkers vehicles st =
      ({ (vehicles.foldl MapTsx.vmStep (st, [])).1 with
          vehicleMarkers :=
            (vehicles.foldl MapTsx.vmStep (st, [])).1.vehicleMarkers.filter
              (fun p => (vehicles.map (fun v => v.vehicle_id)).contains p.1) },
        (vehicles.foldl MapTsx.vmStep (st, [])).2 ++
          ((vehicles.foldl MapTsx.vmStep (st, [])).1.vehicleMarkers.filter
              (fun p => !(vehicles.map (fun v => v.vehicle_id)).contains p.1)).map
            (fun p => MapOp.removeLayer p.2.handle)) := by
  unfold MapTsx.updateVehicleMarkers
  rw [if_neg (by simp [hready])]

/-- C5: vehicle reconciliation keyed by `vehicle_id`.  For every snapshot
(with distinct ids) applied to every well-formed marker state on a ready
map: the resulting marker map holds exactly the snapshot's ids; an id
present in both keeps its marker handle (updated in place, never
destroyed-and-recreated); an id absent from the snapshot has its marker
removed — with a `removeLayer` call — and `removeLayer` is issued for no
other marker; a first-appearing id gets a newly created marker (a fresh
handle, with an add-marker call). -/
theorem c5_vehicle_marker_reconciliation (vehicles : List VehicleAvl)
    (st : MapTsx.MapState) (hready : st.mapReady = true)
    (hkeys : (st.vehicleMarkers.map Prod.fst).Nodup) :
    (∀ k : String,
        (lookupA (MapTsx.updateVehicleMarkers vehicles st).1.vehicleMarkers k).isSome ↔
          k ∈ vehicles.map (fun v => v.vehicle_id)) ∧
    (∀ k m, lookupA st.vehicleMarkers k = some m →
        k ∈ vehicles.map (fun v => v.vehicle_id) →
        ∃ m', lookupA (MapTsx.updateVehicleMarkers vehicles st).1.vehicleMarkers k =
            some m' ∧ m'.handle = m.handle) ∧
    (∀ k m, lookupA st.vehicleMarkers k = some m →
        k ∉ vehicles.map (fun v => v.vehicle_id) →
        lookupA (MapTsx.updateVehicleMarkers vehicles st).1.vehicleMarkers k = none ∧
          MapOp.removeLayer m.handle ∈ (MapTsx.updateVehicleMarkers vehicles st).2) ∧
    (∀ k, k ∈ vehicles.map (fun v => v.vehicle_id) →
        lookupA st.vehicleMarkers k = none →
        ∃ m', lookupA (MapTsx.updateVehicleMarkers vehicles st).1.vehicleMarkers k =
            some m' ∧
          MapOp.addVehicleMarker m'.handle ∈ (MapTsx.updateVehicleMarkers vehicles st).2 ∧
          st.nextHandle ≤ m'.handle) ∧
    (∀ hdl : Nat,
        MapOp.removeLayer hdl ∈ (MapTsx.updateVehicleMarkers vehicles st).2 →
        ∃ k m, lookupA st.vehicleMarkers k = some m ∧ m.handle = hdl ∧
          k ∉ vehicles.map (fun v => v.vehicle_id)) := by
  have hcore := updateVehicleMarkers_core vehicles st hready
  have hfm : (MapTsx.updateVehicleMarkers vehicles st).1.vehicleMarkers =
      (vehicles.foldl MapTsx.vmStep (st, [])).1.vehicleMarkers.filter
        (fun p => (vehicles.map (fun v => v.vehicle_id)).contains p.1) := by
    rw [hcore]
  have hfo : (MapTsx.updateVehicleMarkers vehicles st).2 =
      (vehicles.foldl MapTsx.vmStep (st, [])).2 ++
        ((vehicles.foldl MapTsx.vmStep (st, [])).1.vehicleMarkers.filter
            (fun p => !(vehicles.map (fun v => v.vehicle_id)).contains p.1)).map
          (fun p => MapOp.removeLayer p.2.handle) := by
    rw [hcore]
  have hfin : ∀ k : String,
      lookupA (MapTsx.updateVehicleMarkers vehicles st).1.vehicleMarkers k =
        if (vehicles.map (fun v => v.vehicle_id)).contains k then
          lookupA (vehicles.foldl MapTsx.vmStep (st, [])).1.vehicleMarkers k
        else none := by
    intro k
    rw [hfm]
    exact lookupA_filter_key _ (fun s => (vehicles.map (fun v => v.vehicle_id)).contains s) k
  have hremoved : (vehicles.foldl MapTsx.vmStep (st, [])).1.vehicleMarkers.filter
        (fun p => !(vehicles.map (fun v => v.vehicle_id)).contains p.1) =
      st.vehicleMarkers.filter
        (fun p => !(vehicles.map (fun v => v.vehicle_id)).contains p.1) :=
    vmFold_filter_frame vehicles (st, [])
      (fun s => (vehicles.map (fun v => v.vehicle_id)).contains s)
      (fun v hv => List.elem_iff.mpr (List.mem_map_of_mem _ hv))
  refine ⟨?_, ?_, ?_, ?_, ?_⟩
  · intro k
    by_cases hc : k ∈ vehicles.map (fun v => v.vehicle_id)
    · rw [hfin k, if_pos (List.elem_iff.mpr hc)]
      obtain ⟨m', h1, -, -⟩ := vmFold_lookup_mem vehicles (st, []) k hc
      simp [h1, hc]
    · rw [hfin k, if_neg (fun hcc => hc (List.elem_iff.mp hcc))]
      simp [hc]
  · intro k m hm hc
    obtain ⟨m', h1, h2, -⟩ := vmFold_lookup_mem vehicles (st, []) k hc
    exact ⟨m', by rw [hfin k, if_pos (List.elem_iff.mpr hc)]; exact h1, h2 m hm⟩
  · intro k m hm hc
    constructor
    · rw [hfin k, if_neg (fun hcc => hc (List.elem_iff.mp hcc))]
    · rw [hfo, hremoved]
      refine List.mem_append_right _ ?_
      refine List.mem_map.mpr ⟨(k, m), ?_, rfl⟩
      refine List.mem_filter.mpr ⟨mem_of_lookupA _ _ _ hm, ?_⟩
      simp only [Bool.not_eq_true']
      exact Bool.not_eq_true _ ▸ (fun hcc => hc (List.elem_iff.mp hcc))
  · intro k hc hm
    obtain ⟨m', h1, -, h3⟩ := vmFold_lookup_mem vehicles (st, []) k hc
    obtain ⟨hop, hle⟩ := h3 hm
    refine ⟨m', by rw [hfin k, if_pos (List.elem_iff.mpr hc)]; exact h1, ?_, hle⟩
    rw [hfo]
    exact List.mem_append_left _ hop
  · intro hdl hmem
    rw [hfo, hremoved] at hmem
    rcases List.mem_append.mp hmem with hm | hm
    · obtain ⟨t, ht, hn⟩ := vmFold_ops_mono vehicles (st, [])
      rw [ht, List.nil_append] at hm
      exact absurd hm (hn hdl)
    · obtain ⟨p, hp, hfp⟩ := List.mem_map.mp hm
      obtain ⟨hpmem, hppred⟩ := List.mem_filter.mp hp
      have hhdl : p.2.handle = hdl := by
        simpa using hfp
      refine ⟨p.1, p.2, ?_, hhdl, ?_⟩
      · exact lookupA_of_mem_nodup _ _ _ (by rw [Prod.mk.eta]; exact hpmem) hkeys
      · intro hcc
        rw [Bool.not_eq_true'] at hppred
        have hct : (vehicles.map (fun v => v.vehicle_id)).contains p.1 = true :=
          List.elem_iff.mpr hcc
        rw [hppred] at hct
        exact Bool.false_ne_true hct

/-- Witness for C5 at the spec's example: snapshot A = {v1@(0,0), v2@(1,1)}
already rendered (markers with handles 0 and 1), reconciled against
snapshot B = {v2@(1,2), v3@(2,2)}. -/
theorem c5_vehicle_marker_reconciliation_witness :
    ((MapTsx.updateVehicleMarkers
        [⟨"v1", 0, 0, none, none, none⟩, ⟨"v2", 1, 1, none, none, none⟩] tsxSt0).1.mapReady
        = true) ∧
    (((MapTsx.updateVehicleMarkers
        [⟨"v1", 0, 0, none, none, none⟩, ⟨"v2", 1, 1, none, none, none⟩]
        tsxSt0).1.vehicleMarkers.map Prod.fst).Nodup) ∧
    ((∀ k : String,
        (lookupA (MapTsx.updateVehicleMarkers
            [⟨"v2", 1, 2, none, none, none⟩, ⟨"v3", 2, 2, none, none, none⟩]
            (MapTsx.updateVehicleMarkers
              [⟨"v1", 0, 0, none, none, none⟩, ⟨"v2", 1, 1, none, none, none⟩]
              tsxSt0).1).1.vehicleMarkers k).isSome ↔
          k ∈ [⟨"v2", 1, 2, none, none, none⟩,
              (⟨"v3", 2, 2, none, none, none⟩ : VehicleAvl)].map
            (fun v => v.vehicle_id)) ∧
      (∀ k m, lookupA (MapTsx.updateVehicleMarkers
            [⟨"v1", 0, 0, none, none, none⟩, ⟨"v2", 1, 1, none, none, none⟩]
            tsxSt0).1.vehicleMarkers k = some m →
          k ∈ [⟨"v2", 1, 2, none, none, none⟩,
              (⟨"v3", 2, 2, none, none, none⟩ : VehicleAvl)].map (fun v => v.vehicle_id) →
          ∃ m', lookupA (MapTsx.updateVehicleMarkers
              [⟨"v2", 1, 2, none, none, none⟩, ⟨"v3", 2, 2, none, none, none⟩]
              (MapTsx.updateVehicleMarkers
                [⟨"v1", 0, 0, none, none, none⟩, ⟨"v2", 1, 1, none, none, none⟩]
                tsxSt0).1).1.vehicleMarkers k = some m' ∧ m'.handle = m.handle) ∧
      (∀ k m, lookupA (MapTsx.updateVehicleMarkers
            [⟨"v1", 0, 0, none, none, none⟩, ⟨"v2", 1, 1, none, none, none⟩]
            tsxSt0).1.vehicleMarkers k = some m →
          k ∉ [⟨"v2", 1, 2, none, none, none⟩,
              (⟨"v3", 2, 2, none, none, none⟩ : VehicleAvl)].map (fun v => v.vehicle_id) →
          lookupA (MapTsx.updateVehicleMarkers
              [⟨"v2", 1, 2, none, none, none⟩, ⟨"v3", 2, 2, none, none, none⟩]
              (MapTsx.updateVehicleMarkers
                [⟨"v1", 0, 0, none, none, none⟩, ⟨"v2", 1, 1, none, none, none⟩]
                tsxSt0).1).1.vehicleMarkers k = none ∧
            MapOp.removeLayer m.handle ∈ (MapTsx.updateVehicleMarkers
              [⟨"v2", 1, 2, none, none, none⟩, ⟨"v3", 2, 2, none, none, none⟩]
              (MapTsx.updateVehicleMarkers
                [⟨"v1", 0, 0, none, none, none⟩, ⟨"v2", 1, 1, none, none, none⟩]
                tsxSt0).1).2) ∧
      (∀ k, k ∈ [⟨"v2", 1, 2, none, none, none⟩,
            (⟨"v3", 2, 2, none, none, none⟩ : VehicleAvl)].map (fun v => v.vehicle_id) →
          lookupA (MapTsx.updateVehicleMarkers
            [⟨"v1", 0, 0, none, none, none⟩, ⟨"v2", 1, 1, none, none, none⟩]
            tsxSt0).1.vehicleMarkers k = none →
          ∃ m', lookupA (MapTsx.updateVehicleMarkers
              [⟨"v2", 1, 2, none, none, none⟩, ⟨"v3", 2, 2, none, none, none⟩]
              (MapTsx.updateVehicleMarkers
                [⟨"v1", 0, 0, none, none, none⟩, ⟨"v2", 1, 1, none, none, none⟩]
                tsxSt0).1).1.vehicleMarkers k = some m' ∧
            MapOp.addVehicleMarker m'.handle ∈ (MapTsx.updateVehicleMarkers
              [⟨"v2", 1, 2, none, none, none⟩, ⟨"v3", 2, 2, none, none, none⟩]
              (MapTsx.updateVehicleMarkers
                [⟨"v1", 0, 0, none, none, none⟩, ⟨"v2", 1, 1, none, none, none⟩]
                tsxSt0).1).2 ∧
            (MapTsx.updateVehicleMarkers
              [⟨"v1", 0, 0, none, none, none⟩, ⟨"v2", 1, 1, none, none, none⟩]
              tsxSt0).1.nextHandle ≤ m'.handle) ∧
      (∀ hdl : Nat, MapOp.removeLayer hdl ∈ (MapTsx.updateVehicleMarkers
            [⟨"v2", 1, 2, none, none, none⟩, ⟨"v3", 2, 2, none, none, none⟩]
            (MapTsx.updateVehicleMarkers
              [⟨"v1", 0, 0, none, none, none⟩, ⟨"v2", 1, 1, none, none, none⟩]
              tsxSt0).1).2 →
          ∃ k m, lookupA (MapTsx.updateVehicleMarkers
              [⟨"v1", 0, 0, none, none, none⟩, ⟨"v2", 1, 1, none, none, none⟩]
              tsxSt0).1.vehicleMarkers k = some m ∧ m.handle = hdl ∧
            k ∉ [⟨"v2", 1, 2, none, none, none⟩,
                (⟨"v3", 2, 2, none, none, none⟩ : VehicleAvl)].map
              (fun v => v.vehicle_id))) :=
  ⟨rfl, by decide,
    c5_vehicle_marker_reconciliation
      [⟨"v2", 1, 2, none, none, none⟩, ⟨"v3", 2, 2, none, none, none⟩]
      (MapTsx.updateVehicleMarkers
        [⟨"v1", 0, 0, none, none, none⟩, ⟨"v2", 1, 1, none, none, none⟩] tsxSt0).1
      rfl (by decide)⟩

/-- C6: the no-op guard of the part_001 `updatePolylines` is defeated by its
own drawing path.  The guard compares `currentPolylineDataRef` against the
incoming data, and the redraw branch stores the new data in the ref before
drawing — but `drawPolylinesFromGeoJSON` begins with
`clearRouteElements(true, true)`, which resets `currentPolylineDataRef` to
`null`.  Hence after a first draw the ref is `null` (first conjunct), and a
second invocation with a byte-identical `(selection, polylineData)` pair
sees `hasPolylineDataChanged = true` and issues a full clear-and-redraw:
one `removeLayer`, one `addLine` and one `fitBounds` instead of the claimed
zero draw/remove calls. -/
theorem c6_second_identical_invocation_redraws :
    (Part001.updatePolylines p1Env (some oneLineResp) [] p1St0).1.currentPolylineData
        = none ∧
    (Part001.updatePolylines p1Env (some oneLineResp) []
        (Part001.updatePolylines p1Env (some oneLineResp) [] p1St0).1).2 =
      [MapOp.removeLayer 0, MapOp.addLine 1, MapOp.fitBounds] ∧
    (Part001.updatePolylines p1Env (some oneLineResp) []
        (Part001.updatePolylines p1Env (some oneLineResp) [] p1St0).1).2 ≠ [] := by
  have h2 : (Part001.updatePolylines p1Env (some oneLineResp) []
      (Part001.updatePolylines p1Env (some oneLineResp) [] p1St0).1).2 =
      [MapOp.removeLayer 0, MapOp.addLine 1, MapOp.fitBounds] := rfl
  exact ⟨rfl, h2, by rw [h2]; simp⟩

/-- C9: frame separation of the two entity families in the Map.tsx
component — a vehicle reconciliation pass leaves the route lines and stop
markers untouched, and a route/stop clear (`clearRouteElements`) or
clear-and-redraw pass (`drawPolylinesFromGeoJSON`) leaves the vehicle
markers untouched. -/
theorem c9_frame_separation :
    (∀ (vehicles : List VehicleAvl) (st : MapTsx.MapState),
        (MapTsx.updateVehicleMarkers vehicles st).1.routeLines = st.routeLines ∧
        (MapTsx.updateVehicleMarkers vehicles st).1.stopMarkers = st.stopMarkers) ∧
    (∀ (cp cs : Bool) (st : MapTsx.MapState),
        (MapTsx.clearRouteElements cp cs st).1.vehicleMarkers = st.vehicleMarkers) ∧
    (∀ (api : StopsApi) (resp : PolylineResponse) (fr : Option (List ApiRoute))
        (st : MapTsx.MapState),
        (MapTsx.drawPolylinesFromGeoJSON api resp fr st).1.vehicleMarkers =
          st.vehicleMarkers) := by
  refine ⟨?_, ?_, ?_⟩
  · intro vehicles st
    unfold MapTsx.updateVehicleMarkers
    by_cases h : st.mapReady = false
    · rw [if_pos h]
      exact ⟨rfl, rfl⟩
    · rw [if_neg h]
      exact ⟨(vmFold_route_frame vehicles (st, [])).1,
        (vmFold_route_frame vehicles (st, [])).2⟩
  · intro cp cs st
    rfl
  · intro api resp fr st
    unfold MapTsx.drawPolylinesFromGeoJSON
    by_cases h : st.mapReady = false
    · rw [if_pos h]
    · rw [if_neg h]
      exact (drawFold_vehicle_frame _ _ _ _).trans rfl
